import Mathlib

/-
Shallow embedding of the gwda WebDriver client's transport and
response-decoding layer (src/gwda.go), together with proofs about its
behaviour.

JSON is embedded post-parse: a `rawResponse` is `none` when the body is
not valid JSON, and `some j` when the body parses to the JSON value `j`.
Go's `encoding/json` decoding conventions are modelled explicitly:
struct-field names match object keys ASCII-case-insensitively, repeated
matching keys overwrite (last key in input order wins), a `null` value or
an absent key leaves the target at its zero value without error, and a
value of the wrong JSON type is a hard decode error.
-/

/-- A parsed JSON value, following the JSON data model used by Go's
encoding/json package. -/
inductive JSONValue : Type where
  | null : JSONValue
  | bool (b : Bool) : JSONValue
  | num (n : Int) : JSONValue
  | str (s : String) : JSONValue
  | arr (elems : List JSONValue) : JSONValue
  | obj (fields : List (String × JSONValue)) : JSONValue

/-- The distinct error outcomes produced by the embedded layer:
`unmarshalError` stands for any json.Unmarshal failure, `base64Error`
for base64.StdEncoding.DecodeString failure, `noSuchElement` for the
sentinel `errNoSuchElement` (gwda.go:206), `invalidElement` for the
"invalid element returned" error (gwda.go:217, gwda.go:234), and
`protocolError kind msg` for the error built by checkErr
(gwda.go:152, Go renders it as "kind: msg"). -/
inductive GoError : Type where
  | unmarshalError : GoError
  | base64Error : GoError
  | noSuchElement : GoError
  | invalidElement : GoError
  | protocolError (kind msg : String) : GoError
deriving DecidableEq

/-- gwda.go:132 `type rawResponse []byte`, embedded post-JSON-parse:
`none` models a body that is not valid JSON (every json.Unmarshal on it
fails), `some j` a body parsing to the JSON value `j`. -/
abbrev rawResponse : Type := Option JSONValue

/-- ASCII case-insensitive string comparison, as used by Go's
encoding/json to match object keys against struct field names. -/
def foldEq (a b : String) : Bool :=
  a.data.map Char.toLower == b.data.map Char.toLower

/-- Go encoding/json object-key selection for a single struct field:
keys are matched case-insensitively against the field name (or its json
tag) and every matching key overwrites the previous one, so the last
matching key in input order wins. -/
def jsonField (fields : List (String × JSONValue)) (name : String) : Option JSONValue :=
  match fields with
  | [] => none
  | (k, v) :: rest =>
    match jsonField rest name with
    | some w => some w
    | none => if foldEq k name then some v else none

/-- Go decoding of a JSON value into a `string` location: a JSON string
decodes to itself, JSON `null` leaves the zero value `""` without error,
any other type is an UnmarshalTypeError. -/
def decodeGoString : JSONValue → Except GoError String
  | .str s => .ok s
  | .null => .ok ""
  | _ => .error .unmarshalError

/-- Go decoding of a JSON value into a `bool` location: a JSON bool
decodes to itself, JSON `null` leaves the zero value `false` without
error, any other type is an UnmarshalTypeError. -/
def decodeGoBool : JSONValue → Except GoError Bool
  | .bool b => .ok b
  | .null => .ok false
  | _ => .error .unmarshalError

/-- gwda.go:157-164 rawResponse.valueConvertToString: unmarshal the body
into `struct{ Value string }` and return the Value field; any unmarshal
failure is returned as the error. -/
def rawResponse.valueConvertToString (r : rawResponse) : Except GoError String :=
  match r with
  | none => .error .unmarshalError
  | some .null => .ok ""
  | some (.obj fields) =>
    match jsonField fields "Value" with
    | none => .ok ""
    | some v => decodeGoString v
  | some _ => .error .unmarshalError

/-- gwda.go:166-173 rawResponse.valueConvertToBool: unmarshal the body
into `struct{ Value bool }` and return the Value field; any unmarshal
failure is returned as the error. -/
def rawResponse.valueConvertToBool (r : rawResponse) : Except GoError Bool :=
  match r with
  | none => .error .unmarshalError
  | some .null => .ok false
  | some (.obj fields) =>
    match jsonField fields "Value" with
    | none => .ok false
    | some v => decodeGoBool v
  | some _ => .error .unmarshalError

/- ---------------------------------------------------------------------
Regex `{.+?=(.+?)}` used by checkErr (gwda.go:147), written with escaped
braces in strings below. Go regexp semantics: leftmost match wins, `.`
matches any character except newline, `+?` is lazy (shortest first, with
backtracking to longer spans when the remainder of the pattern cannot
match). The scanners below implement exactly that search for this fixed
pattern and also return the unconsumed suffix after the match.
--------------------------------------------------------------------- -/

/-- The character `\x7b` (opening curly brace). -/
def lbrace : Char := Char.ofNat 123

/-- The character `\x7d` (closing curly brace). -/
def rbrace : Char := Char.ofNat 125

/-- Scan for the closing brace of the capture group `(.+?)` followed by
the closing brace: lazily accumulate capture characters (any non-newline
character, including braces) and close at the first closing brace seen
once the capture is non-empty. Returns the reversed-accumulator's
reversal (the capture) and the suffix after the closing brace. -/
def scanGroup : List Char → List Char → Option (List Char × List Char)
  | _, [] => none
  | acc, c :: cs =>
    if c == rbrace && !acc.isEmpty then some (acc.reverse, cs)
    else if c == '\n' then none
    else scanGroup (c :: acc) cs

/-- Scan for the `=` separating `.+?` from the capture: lazily extend the
first span and, at each `=` with a non-empty span, try to complete the
match; on failure backtrack by treating that `=` as part of the span. -/
def scanEq : List Char → List Char → Option (List Char × List Char)
  | _, [] => none
  | acc, c :: cs =>
    if c == '=' && !acc.isEmpty then
      match scanGroup [] cs with
      | some r => some r
      | none => scanEq (c :: acc) cs
    else if c == '\n' then none
    else scanEq (c :: acc) cs

/-- Leftmost match of the pattern: try each opening brace position from
the left; the first position from which the whole pattern completes
yields the capture and the suffix after the match. -/
def findSubmatchAux : List Char → Option (List Char × List Char)
  | [] => none
  | c :: cs =>
    if c == lbrace then
      match scanEq [] cs with
      | some r => some r
      | none => findSubmatchAux cs
    else findSubmatchAux cs

/-- The captured group of the first (leftmost) match of the Go regex
`\x7b.+?=(.+?)\x7d` in `s`, i.e. what
`regexp.MustCompile` + `FindStringSubmatch` produce at gwda.go:149-150
(`subMatch[len(subMatch)-1]` is the single capture group of that first
match); `none` when `MatchString` is false. -/
def findSubmatchCapture (s : String) : Option String :=
  match findSubmatchAux s.data with
  | some (b, _) => some (String.mk b)
  | none => none

/-- The anonymous struct unmarshalled by checkErr (gwda.go:135-141):
fields Err, Message, Traceback with json tags "error", "message",
"traceback". -/
structure ErrReplyValue where
  Err : String := ""
  Message : String := ""
  Traceback : String := ""
deriving DecidableEq

/-- Decode one json-tagged string field of ErrReplyValue: an absent key
leaves the zero value; a present key decodes as a Go string. -/
def decodeGoStringField (fields : List (String × JSONValue)) (name : String) :
    Except GoError String :=
  match jsonField fields name with
  | none => .ok ""
  | some v => decodeGoString v

/-- Go decoding of a JSON value into the inner struct of checkErr's
reply (`struct{ Err, Message, Traceback string }`). -/
def decodeErrReplyValue : JSONValue → Except GoError ErrReplyValue
  | .null => .ok {}
  | .obj fields =>
    match decodeGoStringField fields "error",
          decodeGoStringField fields "message",
          decodeGoStringField fields "traceback" with
    | .ok e, .ok m, .ok tb => .ok ⟨e, m, tb⟩
    | _, _, _ => .error .unmarshalError
  | _ => .error .unmarshalError

/-- Unmarshal of the body into checkErr's
`struct{ Value struct{ Err, Message, Traceback string } }`
(gwda.go:135-144). -/
def rawResponse.unmarshalErrReply : rawResponse → Except GoError ErrReplyValue
  | none => .error .unmarshalError
  | some .null => .ok {}
  | some (.obj fields) =>
    match jsonField fields "Value" with
    | none => .ok {}
    | some v => decodeErrReplyValue v
  | some _ => .error .unmarshalError

/-- gwda.go:134-155 rawResponse.checkErr: unmarshal the error envelope
(failure is returned as the error); if value.error is non-empty, the
error text is value.message, replaced by the regex capture when the
regex matches, and a protocol error "error: text" is returned; otherwise
nil. -/
def rawResponse.checkErr (r : rawResponse) : Option GoError :=
  match r.unmarshalErrReply with
  | .error e => some e
  | .ok reply =>
    if reply.Err != "" then
      let errText := match findSubmatchCapture reply.Message with
        | some cap => cap
        | none => reply.Message
      some (.protocolError reply.Err errText)
    else none

/-- gwda.go:80-87, the tail of executeHTTP after the body has been read:
run checkErr on the raw bytes; if it reports an error and the HTTP
status is 200 (http.StatusOK), the raw bytes are still returned as
success with a nil error; if it reports an error and the status is not
200, that error is surfaced; with no error the raw bytes are returned. -/
def executeHTTPResult (statusCode : Nat) (body : rawResponse) :
    Except GoError rawResponse :=
  match body.checkErr with
  | some e => if statusCode = 200 then .ok body else .error e
  | none => .ok body

/- ---------------------------------------------------------------------
Element identifier resolution (gwda.go:609-627).
--------------------------------------------------------------------- -/

/-- gwda.go:613 the legacy JSON-wire-protocol element key. -/
def legacyWebElementIdentifier : String := "ELEMENT"

/-- gwda.go:617 the W3C-standard element key. -/
def webElementIdentifier : String := "element-6066-11e4-a52e-4f735466cecf"

/-- The loop body of elementIDFromValue: try each key in order; a key
that is present with a non-empty value returns that value, otherwise the
next key is tried; exhaustion returns "". Go maps are modelled as
association lists with unique keys (lookup returns the first binding). -/
def elementIDFromKeys (val : List (String × String)) : List String → String
  | [] => ""
  | key :: rest =>
    match val.lookup key with
    | some v => if v = "" then elementIDFromKeys val rest else v
    | none => elementIDFromKeys val rest

/-- gwda.go:620-627 elementIDFromValue: check the W3C key, then the
legacy key; return the first present non-empty value, else "". -/
def elementIDFromValue (val : List (String × String)) : String :=
  elementIDFromKeys val [webElementIdentifier, legacyWebElementIdentifier]

/-- Go map[string]string build-up: JSON object keys decode left to
right, a duplicate key overwriting the earlier binding in place. -/
def mapInsert (m : List (String × String)) (k v : String) :
    List (String × String) :=
  if m.any (fun p => p.1 == k) then
    m.map (fun p => if p.1 == k then (p.1, v) else p)
  else m ++ [(k, v)]

/-- Decode the fields of a JSON object into a Go map[string]string,
accumulating left to right; a non-string (and non-null) value aborts
with an unmarshal error. -/
def decodeStringMapFields : List (String × JSONValue) → List (String × String) →
    Except GoError (List (String × String))
  | [], acc => .ok acc
  | (k, v) :: rest, acc =>
    match decodeGoString v with
    | .error e => .error e
    | .ok s => decodeStringMapFields rest (mapInsert acc k s)

/-- Go decoding of a JSON value into a map[string]string: `null` leaves
the nil map, an object decodes field by field, anything else is an
UnmarshalTypeError. -/
def decodeStringMap : JSONValue → Except GoError (List (String × String))
  | .null => .ok []
  | .obj fields => decodeStringMapFields fields []
  | _ => .error .unmarshalError

/-- Unmarshal of the body into `struct{ Value map[string]string }`
(gwda.go:209-212): an absent or null value field leaves the nil map. -/
def rawResponse.unmarshalElementReply : rawResponse →
    Except GoError (List (String × String))
  | none => .error .unmarshalError
  | some .null => .ok []
  | some (.obj fields) =>
    match jsonField fields "Value" with
    | none => .ok []
    | some v => decodeStringMap v
  | some _ => .error .unmarshalError

/-- gwda.go:208-220 rawResponse.valueConvertToElementID: unmarshal
failure is the error; an empty map is errNoSuchElement; a map on which
elementIDFromValue resolves to "" is the invalid-element error;
otherwise the resolved id is returned. -/
def rawResponse.valueConvertToElementID (r : rawResponse) :
    Except GoError String :=
  match r.unmarshalElementReply with
  | .error e => .error e
  | .ok m =>
    if m.length = 0 then .error .noSuchElement
    else
      let id := elementIDFromValue m
      if id = "" then .error .invalidElement else .ok id

/-- Decode a JSON array's elements into Go []map[string]string, aborting
at the first element that fails to decode. -/
def decodeStringMapList : List JSONValue →
    Except GoError (List (List (String × String)))
  | [] => .ok []
  | v :: rest =>
    match decodeStringMap v with
    | .error e => .error e
    | .ok m =>
      match decodeStringMapList rest with
      | .error e => .error e
      | .ok ms => .ok (m :: ms)

/-- Unmarshal of the body into `struct{ Value []map[string]string }`
(gwda.go:223-226): an absent or null value field leaves the nil slice. -/
def rawResponse.unmarshalElementsReply : rawResponse →
    Except GoError (List (List (String × String)))
  | none => .error .unmarshalError
  | some .null => .ok []
  | some (.obj fields) =>
    match jsonField fields "Value" with
    | none => .ok []
    | some .null => .ok []
    | some (.arr elems) => decodeStringMapList elems
    | some _ => .error .unmarshalError
  | some _ => .error .unmarshalError

/-- The loop of valueConvertToElementIDs (gwda.go:231-237): resolve each
entry in order; the first entry resolving to "" aborts with the
invalid-element error. -/
def collectElementIDs : List (List (String × String)) →
    Except GoError (List String)
  | [] => .ok []
  | m :: rest =>
    let id := elementIDFromValue m
    if id = "" then .error .invalidElement
    else
      match collectElementIDs rest with
      | .error e => .error e
      | .ok ids => .ok (id :: ids)

/-- gwda.go:222-239 rawResponse.valueConvertToElementIDs: unmarshal
failure is the error; an empty wire list is errNoSuchElement; otherwise
every entry is resolved in order with the first failure aborting. -/
def rawResponse.valueConvertToElementIDs (r : rawResponse) :
    Except GoError (List String) :=
  match r.unmarshalElementsReply with
  | .error e => .error e
  | .ok ms =>
    if ms.length = 0 then .error .noSuchElement
    else collectElementIDs ms
/-- gwda.go:774-858 ElementType: the ordered record of element-type
boolean flags; each field defaults to false (the Go zero value). -/
structure ElementType where
  Any : Bool := false
  Other : Bool := false
  Application : Bool := false
  Group : Bool := false
  Window : Bool := false
  Sheet : Bool := false
  Drawer : Bool := false
  Alert : Bool := false
  Dialog : Bool := false
  Button : Bool := false
  RadioButton : Bool := false
  RadioGroup : Bool := false
  CheckBox : Bool := false
  DisclosureTriangle : Bool := false
  PopUpButton : Bool := false
  ComboBox : Bool := false
  MenuButton : Bool := false
  ToolbarButton : Bool := false
  Popover : Bool := false
  Keyboard : Bool := false
  Key : Bool := false
  NavigationBar : Bool := false
  TabBar : Bool := false
  TabGroup : Bool := false
  Toolbar : Bool := false
  StatusBar : Bool := false
  Table : Bool := false
  TableRow : Bool := false
  TableColumn : Bool := false
  Outline : Bool := false
  OutlineRow : Bool := false
  Browser : Bool := false
  CollectionView : Bool := false
  Slider : Bool := false
  PageIndicator : Bool := false
  ProgressIndicator : Bool := false
  ActivityIndicator : Bool := false
  SegmentedControl : Bool := false
  Picker : Bool := false
  PickerWheel : Bool := false
  Switch : Bool := false
  Toggle : Bool := false
  Link : Bool := false
  Image : Bool := false
  Icon : Bool := false
  SearchField : Bool := false
  ScrollView : Bool := false
  ScrollBar : Bool := false
  StaticText : Bool := false
  TextField : Bool := false
  SecureTextField : Bool := false
  DatePicker : Bool := false
  TextView : Bool := false
  Menu : Bool := false
  MenuItem : Bool := false
  MenuBar : Bool := false
  MenuBarItem : Bool := false
  Map : Bool := false
  WebView : Bool := false
  IncrementArrow : Bool := false
  DecrementArrow : Bool := false
  Timeline : Bool := false
  RatingIndicator : Bool := false
  ValueIndicator : Bool := false
  SplitGroup : Bool := false
  Splitter : Bool := false
  RelevanceIndicator : Bool := false
  ColorWell : Bool := false
  HelpTag : Bool := false
  Matte : Bool := false
  DockItem : Bool := false
  Ruler : Bool := false
  RulerMarker : Bool := false
  Grid : Bool := false
  LevelIndicator : Bool := false
  Cell : Bool := false
  LayoutArea : Bool := false
  LayoutItem : Bool := false
  Handle : Bool := false
  Stepper : Bool := false
  Tab : Bool := false
  TouchBar : Bool := false
  StatusItem : Bool := false

/-- The declared field order of ElementType with each field's json tag
(wire name), as reflect.TypeOf/reflect.ValueOf enumerate it in
ElementType.String (gwda.go:761-770). -/
def ElementType.taggedFields (et : ElementType) : List (String × Bool) :=
  [("XCUIElementTypeAny", et.Any),
   ("XCUIElementTypeOther", et.Other),
   ("XCUIElementTypeApplication", et.Application),
   ("XCUIElementTypeGroup", et.Group),
   ("XCUIElementTypeWindow", et.Window),
   ("XCUIElementTypeSheet", et.Sheet),
   ("XCUIElementTypeDrawer", et.Drawer),
   ("XCUIElementTypeAlert", et.Alert),
   ("XCUIElementTypeDialog", et.Dialog),
   ("XCUIElementTypeButton", et.Button),
   ("XCUIElementTypeRadioButton", et.RadioButton),
   ("XCUIElementTypeRadioGroup", et.RadioGroup),
   ("XCUIElementTypeCheckBox", et.CheckBox),
   ("XCUIElementTypeDisclosureTriangle", et.DisclosureTriangle),
   ("XCUIElementTypePopUpButton", et.PopUpButton),
   ("XCUIElementTypeComboBox", et.ComboBox),
   ("XCUIElementTypeMenuButton", et.MenuButton),
   ("XCUIElementTypeToolbarButton", et.ToolbarButton),
   ("XCUIElementTypePopover", et.Popover),
   ("XCUIElementTypeKeyboard", et.Keyboard),
   ("XCUIElementTypeKey", et.Key),
   ("XCUIElementTypeNavigationBar", et.NavigationBar),
   ("XCUIElementTypeTabBar", et.TabBar),
   ("XCUIElementTypeTabGroup", et.TabGroup),
   ("XCUIElementTypeToolbar", et.Toolbar),
   ("XCUIElementTypeStatusBar", et.StatusBar),
   ("XCUIElementTypeTable", et.Table),
   ("XCUIElementTypeTableRow", et.TableRow),
   ("XCUIElementTypeTableColumn", et.TableColumn),
   ("XCUIElementTypeOutline", et.Outline),
   ("XCUIElementTypeOutlineRow", et.OutlineRow),
   ("XCUIElementTypeBrowser", et.Browser),
   ("XCUIElementTypeCollectionView", et.CollectionView),
   ("XCUIElementTypeSlider", et.Slider),
   ("XCUIElementTypePageIndicator", et.PageIndicator),
   ("XCUIElementTypeProgressIndicator", et.ProgressIndicator),
   ("XCUIElementTypeActivityIndicator", et.ActivityIndicator),
   ("XCUIElementTypeSegmentedControl", et.SegmentedControl),
   ("XCUIElementTypePicker", et.Picker),
   ("XCUIElementTypePickerWheel", et.PickerWheel),
   ("XCUIElementTypeSwitch", et.Switch),
   ("XCUIElementTypeToggle", et.Toggle),
   ("XCUIElementTypeLink", et.Link),
   ("XCUIElementTypeImage", et.Image),
   ("XCUIElementTypeIcon", et.Icon),
   ("XCUIElementTypeSearchField", et.SearchField),
   ("XCUIElementTypeScrollView", et.ScrollView),
   ("XCUIElementTypeScrollBar", et.ScrollBar),
   ("XCUIElementTypeStaticText", et.StaticText),
   ("XCUIElementTypeTextField", et.TextField),
   ("XCUIElementTypeSecureTextField", et.SecureTextField),
   ("XCUIElementTypeDatePicker", et.DatePicker),
   ("XCUIElementTypeTextView", et.TextView),
   ("XCUIElementTypeMenu", et.Menu),
   ("XCUIElementTypeMenuItem", et.MenuItem),
   ("XCUIElementTypeMenuBar", et.MenuBar),
   ("XCUIElementTypeMenuBarItem", et.MenuBarItem),
   ("XCUIElementTypeMap", et.Map),
   ("XCUIElementTypeWebView", et.WebView),
   ("XCUIElementTypeIncrementArrow", et.IncrementArrow),
   ("XCUIElementTypeDecrementArrow", et.DecrementArrow),
   ("XCUIElementTypeTimeline", et.Timeline),
   ("XCUIElementTypeRatingIndicator", et.RatingIndicator),
   ("XCUIElementTypeValueIndicator", et.ValueIndicator),
   ("XCUIElementTypeSplitGroup", et.SplitGroup),
   ("XCUIElementTypeSplitter", et.Splitter),
   ("XCUIElementTypeRelevanceIndicator", et.RelevanceIndicator),
   ("XCUIElementTypeColorWell", et.ColorWell),
   ("XCUIElementTypeHelpTag", et.HelpTag),
   ("XCUIElementTypeMatte", et.Matte),
   ("XCUIElementTypeDockItem", et.DockItem),
   ("XCUIElementTypeRuler", et.Ruler),
   ("XCUIElementTypeRulerMarker", et.RulerMarker),
   ("XCUIElementTypeGrid", et.Grid),
   ("XCUIElementTypeLevelIndicator", et.LevelIndicator),
   ("XCUIElementTypeCell", et.Cell),
   ("XCUIElementTypeLayoutArea", et.LayoutArea),
   ("XCUIElementTypeLayoutItem", et.LayoutItem),
   ("XCUIElementTypeHandle", et.Handle),
   ("XCUIElementTypeStepper", et.Stepper),
   ("XCUIElementTypeTab", et.Tab),
   ("XCUIElementTypeTouchBar", et.TouchBar),
   ("XCUIElementTypeStatusItem", et.StatusItem)]

/-- gwda.go:761-770 ElementType.String: scan the fields in declared
order and return the json tag of the first field holding true; return
the sentinel "UNKNOWN" when none is true. -/
def ElementType.String (et : ElementType) : String :=
  match et.taggedFields.find? (fun p => p.2) with
  | some p => p.1
  | none => "UNKNOWN"

/-- The payloads stored in an ElementAttribute (Go map[string]interface
values). Only the two cases the source's ElementAttribute.String switch
names explicitly (bool and string, gwda.go:675-680) are modelled; the
fmt.Sprintf fallback branch for other payload types is not exercised by
any claim. -/
inductive AttrValue : Type where
  | bool (b : Bool) : AttrValue
  | str (s : String) : AttrValue

/-- gwda.go:671 ElementAttribute, a Go map from attribute names to
values, modelled as an association list with unique keys. The Go map's
iteration order is unspecified; the list order stands in for it, which
is faithful for the at-most-one-entry maps the selector API builds. -/
abbrev ElementAttribute : Type := List (String × AttrValue)

/-- Go's strconv.FormatBool. -/
def formatBool (b : Bool) : String := if b then "true" else "false"

/-- gwda.go:673-685 ElementAttribute.String: render the first entry as
"key=value" (bool values via strconv.FormatBool, strings as-is); an
empty map renders to the sentinel "UNKNOWN". -/
def ElementAttribute.String : ElementAttribute → String
  | [] => "UNKNOWN"
  | (k, .bool b) :: _ => k ++ "=" ++ formatBool b
  | (k, .str s) :: _ => k ++ "=" ++ s

/-- gwda.go:629-648 BySelector: the selector record, fields in declared
order with their json tags; defaults are the Go zero values. -/
structure BySelector where
  ClassName : ElementType := {}
  Name : String := ""
  Id : String := ""
  AccessibilityId : String := ""
  LinkText : ElementAttribute := []
  PartialLinkText : ElementAttribute := []
  Predicate : String := ""
  ClassChain : String := ""
  XPath : String := ""

/-- The declared field order of BySelector with each field's json tag
and its rendered string value, exactly as the reflection loop of
getUsingAndValue (gwda.go:653-662) visits and renders them. -/
def BySelector.taggedFields (wl : BySelector) : List (String × String) :=
  [("class name", wl.ClassName.String),
   ("name", wl.Name),
   ("id", wl.Id),
   ("accessibility id", wl.AccessibilityId),
   ("link text", wl.LinkText.String),
   ("partial link text", wl.PartialLinkText.String),
   ("predicate string", wl.Predicate),
   ("class chain", wl.ClassChain),
   ("xpath", wl.XPath)]

/-- The loop of getUsingAndValue (gwda.go:653-667) with its named
return variable `value` threaded through: each iteration overwrites
`value` with the current field's rendered string and returns the
(tag, value) pair when the rendered string is neither "" nor "UNKNOWN";
when the loop exhausts the fields, the function's final bare `return`
yields `using = ""` and the `value` left over from the last iteration. -/
def getUVLoop : List (String × String) → String → String × String
  | [], value => ("", value)
  | (tag, v) :: rest, _ =>
    if v != "" && v != "UNKNOWN" then (tag, v) else getUVLoop rest v

/-- gwda.go:650-669 BySelector.getUsingAndValue. -/
def BySelector.getUsingAndValue (wl : BySelector) : String × String :=
  getUVLoop wl.taggedFields ""

/- ---------------------------------------------------------------------
Base64 (Go's base64.StdEncoding) on byte sequences, bytes as Nat < 256,
characters as their code points.
--------------------------------------------------------------------- -/

/-- The standard base64 alphabet: 6-bit value to character code. -/
def b64EncChar (n : Nat) : Nat :=
  if n < 26 then 65 + n
  else if n < 52 then 97 + (n - 26)
  else if n < 62 then 48 + (n - 52)
  else if n = 62 then 43
  else 47

/-- The standard base64 alphabet inverted: character code to 6-bit
value, `none` for characters outside the alphabet (this is Go's
decodeMap with 0xFF entries mapped to `none`; '=' (code 61) is not in
the alphabet). -/
def b64DecChar (c : Nat) : Option Nat :=
  if 65 ≤ c ∧ c ≤ 90 then some (c - 65)
  else if 97 ≤ c ∧ c ≤ 122 then some (c - 97 + 26)
  else if 48 ≤ c ∧ c ≤ 57 then some (c - 48 + 52)
  else if c = 43 then some 62
  else if c = 47 then some 63
  else none

/-- Modelled from the spec: the test-side standard base64 encoder
("base64-encoding a byte sequence", spec section 8.6; Go's
base64.StdEncoding.EncodeToString). Three input bytes yield four
alphabet characters; a final byte yields two characters plus "==" (code
61 twice); two final bytes yield three characters plus "=". -/
def base64EncodeCodes : List Nat → List Nat
  | b0 :: b1 :: b2 :: rest =>
    b64EncChar (b0 / 4) :: b64EncChar (b0 % 4 * 16 + b1 / 16) ::
      b64EncChar (b1 % 16 * 4 + b2 / 64) :: b64EncChar (b2 % 64) ::
      base64EncodeCodes rest
  | [b0, b1] =>
    [b64EncChar (b0 / 4), b64EncChar (b0 % 4 * 16 + b1 / 16),
     b64EncChar (b1 % 16 * 4), 61]
  | [b0] => [b64EncChar (b0 / 4), b64EncChar (b0 % 4 * 16), 61, 61]
  | [] => []

/-- Go's base64.StdEncoding.DecodeString on a sequence of character
codes: the input is consumed in four-character quanta; padding ('=',
code 61) is only legal in the final quantum ("xx==" yields one byte,
"xxx=" two); a quantum of four alphabet characters yields three bytes;
anything else (a non-alphabet character, a truncated quantum, padding
before the end) is an error, modelled as `none`. -/
def base64DecodeCodes : List Nat → Option (List Nat)
  | [] => some []
  | c0 :: c1 :: c2 :: c3 :: rest =>
    if c2 = 61 ∧ c3 = 61 ∧ rest = [] then
      match b64DecChar c0, b64DecChar c1 with
      | some v0, some v1 => some [v0 * 4 + v1 / 16]
      | _, _ => none
    else if c3 = 61 ∧ rest = [] then
      match b64DecChar c0, b64DecChar c1, b64DecChar c2 with
      | some v0, some v1, some v2 =>
        some [v0 * 4 + v1 / 16, v1 % 16 * 16 + v2 / 4]
      | _, _, _ => none
    else
      match b64DecChar c0, b64DecChar c1, b64DecChar c2, b64DecChar c3,
            base64DecodeCodes rest with
      | some v0, some v1, some v2, some v3, some bs =>
        some ((v0 * 4 + v1 / 16) :: (v1 % 16 * 16 + v2 / 4) ::
          (v2 % 4 * 64 + v3) :: bs)
      | _, _, _, _, _ => none
  | _ => none

/-- Modelled from the spec: the synthetic-envelope base64 string for a
byte sequence, as a Lean String of the encoded character codes. -/
def base64EncodeString (b : List Nat) : String :=
  String.mk ((base64EncodeCodes b).map Char.ofNat)

/-- gwda.go:193-204 rawResponse.valueDecodeAsBase64: extract the value
as a string (envelope failure propagates), then base64-decode it (Go's
base64.StdEncoding.DecodeString); a decode failure is the base64 error,
otherwise the bytes are returned. -/
def rawResponse.valueDecodeAsBase64 (r : rawResponse) :
    Except GoError (List Nat) :=
  match r.valueConvertToString with
  | .error e => .error e
  | .ok s =>
    match base64DecodeCodes (s.data.map Char.toNat) with
    | none => .error .base64Error
    | some bs => .ok bs

/-- Modelled from the spec: "if multiple matches exist, use the last
one's last captured group" (spec section 4.2). All successive
non-overlapping matches of the regex, scanning from the left and
resuming after each match, fuelled by the input length (each match
consumes at least one character). -/
def allCapturesFuel : Nat → List Char → List (List Char)
  | 0, _ => []
  | fuel + 1, cs =>
    match findSubmatchAux cs with
    | none => []
    | some (b, rest) => b :: allCapturesFuel fuel rest

/-- Modelled from the spec: the last match's captured group. -/
def lastMatchCapture (s : String) : Option String :=
  (allCapturesFuel s.data.length s.data).getLast?.map String.mk

/-- Whether a JSON value is a string. -/
def JSONValue.isStr : JSONValue → Bool
  | .str _ => true
  | _ => false

/-- Whether a JSON value is null. -/
def JSONValue.isNull : JSONValue → Bool
  | .null => true
  | _ => false

/-- Whether a JSON value is a boolean. -/
def JSONValue.isBool : JSONValue → Bool
  | .bool _ => true
  | _ => false

/-- List.find? on a list whose prefix everywhere fails the predicate
returns the first succeeding element. -/
theorem find?_append_first {α : Type} (p : α → Bool) (l₁ : List α) (q : α)
    (l₂ : List α) (h₁ : ∀ x ∈ l₁, p x = false) (h₂ : p q = true) :
    (l₁ ++ q :: l₂).find? p = some q := by
  induction l₁ with
  | nil => simp [List.find?, h₂]
  | cons a l ih =>
    have ha := h₁ a (by simp)
    simp only [List.cons_append, List.find?, ha]
    exact ih (fun x hx => h₁ x (by simp [hx]))

/-- C1: elementIDFromValue checks the W3C key first: a present non-empty
W3C value is returned (regardless of the legacy binding); when the W3C
key is absent or empty, a present non-empty legacy value is returned;
when both are absent or empty, "" is returned. -/
theorem elementIDFromValue_two_key_resolution (val : List (String × String)) :
    (∀ v, val.lookup webElementIdentifier = some v → v ≠ "" →
      elementIDFromValue val = v) ∧
    ((∀ v, val.lookup webElementIdentifier = some v → v = "") →
      ∀ w, val.lookup legacyWebElementIdentifier = some w → w ≠ "" →
        elementIDFromValue val = w) ∧
    ((∀ v, val.lookup webElementIdentifier = some v → v = "") →
      (∀ w, val.lookup legacyWebElementIdentifier = some w → w = "") →
      elementIDFromValue val = "") := by
  refine ⟨?_, ?_, ?_⟩
  · intro v hv hne
    simp [elementIDFromValue, elementIDFromKeys, hv, hne]
  · intro hw0 w hw hne
    cases hv : val.lookup webElementIdentifier with
    | none => simp [elementIDFromValue, elementIDFromKeys, hv, hw, hne]
    | some v =>
      have hv0 : v = "" := hw0 v hv
      subst hv0
      simp [elementIDFromValue, elementIDFromKeys, hv, hw, hne]
  · intro hw0 hl0
    cases hv : val.lookup webElementIdentifier with
    | none =>
      cases hl : val.lookup legacyWebElementIdentifier with
      | none => simp [elementIDFromValue, elementIDFromKeys, hv, hl]
      | some w =>
        have hw0' : w = "" := hl0 w hl
        subst hw0'
        simp [elementIDFromValue, elementIDFromKeys, hv, hl]
    | some v =>
      have hv0 : v = "" := hw0 v hv
      subst hv0
      cases hl : val.lookup legacyWebElementIdentifier with
      | none => simp [elementIDFromValue, elementIDFromKeys, hv, hl]
      | some w =>
        have hw0' : w = "" := hl0 w hl
        subst hw0'
        simp [elementIDFromValue, elementIDFromKeys, hv, hl]

/-- C1 witness: with both keys bound to different non-empty values the
W3C value wins. -/
theorem elementIDFromValue_two_key_resolution_witness :
    [(webElementIdentifier, "w3c-id"), (legacyWebElementIdentifier, "legacy-id")].lookup
      webElementIdentifier = some "w3c-id" ∧
    elementIDFromValue
      [(webElementIdentifier, "w3c-id"), (legacyWebElementIdentifier, "legacy-id")] = "w3c-id" :=
  ⟨rfl,
   (elementIDFromValue_two_key_resolution
      [(webElementIdentifier, "w3c-id"), (legacyWebElementIdentifier, "legacy-id")]).1
     "w3c-id" rfl (by decide)⟩

/-- C4: when error classification reports a protocol error, the
transport executor returns the raw body as success when the HTTP status
is 200, and surfaces that protocol error when the status is not 200. -/
theorem executeHTTP_status200_protocol_error (body : rawResponse)
    (k m : String) (status : Nat)
    (hc : rawResponse.checkErr body = some (.protocolError k m)) :
    executeHTTPResult 200 body = .ok body ∧
    (status ≠ 200 → executeHTTPResult status body = .error (.protocolError k m)) := by
  constructor
  · simp [executeHTTPResult, hc]
  · intro hs
    simp [executeHTTPResult, hc, hs]

/-- C4 witness: a body with a non-empty value.error is classified as a
protocol error, yet status 200 returns the bytes; status 404 surfaces
the error. -/
theorem executeHTTP_status200_protocol_error_witness :
    rawResponse.checkErr (some (.obj [("value", .obj [("error", .str "bad")])]))
      = some (.protocolError "bad" "") ∧
    executeHTTPResult 200 (some (.obj [("value", .obj [("error", .str "bad")])]))
      = .ok (some (.obj [("value", .obj [("error", .str "bad")])])) ∧
    executeHTTPResult 404 (some (.obj [("value", .obj [("error", .str "bad")])]))
      = .error (.protocolError "bad" "") :=
  ⟨rfl,
   (executeHTTP_status200_protocol_error
     (some (.obj [("value", .obj [("error", .str "bad")])])) "bad" "" 404 rfl).1,
   (executeHTTP_status200_protocol_error
     (some (.obj [("value", .obj [("error", .str "bad")])])) "bad" "" 404 rfl).2 (by decide)⟩

/-- C10: when the body is not valid JSON, error classification itself
fails with a parse error; the executor still returns the raw body as
success when the status is 200 and surfaces the parse error when the
status is not 200. -/
theorem executeHTTP_status200_malformed_body (status : Nat) (body : rawResponse)
    (hb : body = none) :
    executeHTTPResult 200 body = .ok body ∧
    (status ≠ 200 → executeHTTPResult status body = .error .unmarshalError) := by
  subst hb
  constructor
  · rfl
  · intro hs
    simp [executeHTTPResult, rawResponse.checkErr, rawResponse.unmarshalErrReply, hs]

/-- C10 witness at status 500. -/
theorem executeHTTP_status200_malformed_body_witness :
    executeHTTPResult 200 none = .ok none ∧
    executeHTTPResult 500 none = .error .unmarshalError :=
  ⟨(executeHTTP_status200_malformed_body 500 none rfl).1,
   (executeHTTP_status200_malformed_body 500 none rfl).2 (by decide)⟩

/-- C9 counterexample: on an envelope that is valid JSON but has no
value field at all, the extraction operations return the Go zero values
with no error, because json.Unmarshal leaves an unmatched struct field
untouched; the claim's "missing value field is a hard decode error" is
false on the code. -/
theorem valueConvertToString_missing_value_counterexample :
    rawResponse.valueConvertToString (some (.obj [("status", .num 0)])) = .ok "" ∧
    rawResponse.valueConvertToBool (some (.obj [("status", .num 0)])) = .ok false :=
  ⟨rfl, rfl⟩

/-- C9 amended: malformed JSON and a value field of the wrong JSON type
fail with a hard decode error; a missing (or null) value field is not an
error and yields the zero value. -/
theorem valueConvert_decode_errors :
    (rawResponse.valueConvertToString none = .error .unmarshalError ∧
     rawResponse.valueConvertToBool none = .error .unmarshalError) ∧
    (∀ (fields : List (String × JSONValue)) (v : JSONValue),
      jsonField fields "Value" = some v → v.isStr = false → v.isNull = false →
      rawResponse.valueConvertToString (some (.obj fields)) = .error .unmarshalError) ∧
    (∀ (fields : List (String × JSONValue)) (v : JSONValue),
      jsonField fields "Value" = some v → v.isBool = false → v.isNull = false →
      rawResponse.valueConvertToBool (some (.obj fields)) = .error .unmarshalError) ∧
    (∀ fields : List (String × JSONValue), jsonField fields "Value" = none →
      rawResponse.valueConvertToString (some (.obj fields)) = .ok "" ∧
      rawResponse.valueConvertToBool (some (.obj fields)) = .ok false) := by
  refine ⟨⟨rfl, rfl⟩, ?_, ?_, ?_⟩
  · intro fields v hf hs hn
    cases v <;>
      simp_all [rawResponse.valueConvertToString, decodeGoString,
        JSONValue.isStr, JSONValue.isNull]
  · intro fields v hf hb hn
    cases v <;>
      simp_all [rawResponse.valueConvertToBool, decodeGoBool,
        JSONValue.isBool, JSONValue.isNull]
  · intro fields hf
    exact ⟨by simp [rawResponse.valueConvertToString, hf],
           by simp [rawResponse.valueConvertToBool, hf]⟩

/-- C9 witness: a numeric value rejected by asString and a string value
rejected by asBool. -/
theorem valueConvert_decode_errors_witness :
    rawResponse.valueConvertToString (some (.obj [("value", .num 7)]))
      = .error .unmarshalError ∧
    rawResponse.valueConvertToBool (some (.obj [("value", .str "t")]))
      = .error .unmarshalError :=
  ⟨valueConvert_decode_errors.2.1 [("value", .num 7)] (.num 7) rfl rfl rfl,
   valueConvert_decode_errors.2.2.1 [("value", .str "t")] (.str "t") rfl rfl rfl⟩

/-- C5: decoding a well-formed `value`-map envelope: an empty map is the
no-such-element condition; a non-empty map on which the two-key
resolution yields "" is the invalid-element error (a distinct error from
no-such-element); otherwise the resolved handle is returned without
error. -/
theorem valueConvertToElementID_cases (r : rawResponse)
    (m : List (String × String))
    (hdec : rawResponse.unmarshalElementReply r = .ok m) :
    (m = [] → rawResponse.valueConvertToElementID r = .error .noSuchElement) ∧
    (m ≠ [] → elementIDFromValue m = "" →
      rawResponse.valueConvertToElementID r = .error .invalidElement ∧
      GoError.invalidElement ≠ GoError.noSuchElement) ∧
    (elementIDFromValue m ≠ "" →
      rawResponse.valueConvertToElementID r = .ok (elementIDFromValue m)) := by
  refine ⟨?_, ?_, ?_⟩
  · intro hm
    subst hm
    simp [rawResponse.valueConvertToElementID, hdec]
  · intro hm hid
    refine ⟨?_, by decide⟩
    have hlen : m.length ≠ 0 := by simpa using hm
    simp [rawResponse.valueConvertToElementID, hdec, hlen, hid]
  · intro hid
    have hm : m ≠ [] := by
      intro h
      subst h
      exact hid rfl
    have hlen : m.length ≠ 0 := by simpa using hm
    simp [rawResponse.valueConvertToElementID, hdec, hlen, hid]

/-- C5 witness: a W3C-keyed map resolves to its handle. -/
theorem valueConvertToElementID_cases_witness :
    rawResponse.valueConvertToElementID
      (some (.obj [("value",
        .obj [("element-6066-11e4-a52e-4f735466cecf", .str "abc")])]))
      = .ok "abc" :=
  (valueConvertToElementID_cases
    (some (.obj [("value",
      .obj [("element-6066-11e4-a52e-4f735466cecf", .str "abc")])]))
    [("element-6066-11e4-a52e-4f735466cecf", "abc")] rfl).2.2 (by decide)

/-- The element-list loop resolves every entry when none resolves
empty. -/
theorem collectElementIDs_ok (ms : List (List (String × String)))
    (h : ∀ m ∈ ms, elementIDFromValue m ≠ "") :
    collectElementIDs ms = .ok (ms.map elementIDFromValue) := by
  induction ms with
  | nil => rfl
  | cons m rest ih =>
    have hm := h m (by simp)
    have := ih (fun x hx => h x (by simp [hx]))
    simp [collectElementIDs, hm, this]

/-- The element-list loop aborts with the invalid-element error at the
first entry resolving empty. -/
theorem collectElementIDs_first_bad (l₁ : List (List (String × String)))
    (m : List (String × String)) (l₂ : List (List (String × String)))
    (h₁ : ∀ x ∈ l₁, elementIDFromValue x ≠ "")
    (hm : elementIDFromValue m = "") :
    collectElementIDs (l₁ ++ m :: l₂) = .error .invalidElement := by
  induction l₁ with
  | nil => simp [collectElementIDs, hm]
  | cons a rest ih =>
    have ha := h₁ a (by simp)
    have := ih (fun x hx => h₁ x (by simp [hx]))
    simp [collectElementIDs, ha, this]

/-- C6: the empty wire list decodes to the no-such-element condition
(not a decode error and not a successful empty list); a non-empty wire
list is resolved entry by entry in order, succeeding with all handles
when every entry resolves, and aborting with the hard invalid-element
error at the first entry that resolves empty. -/
theorem valueConvertToElementIDs_cases :
    rawResponse.valueConvertToElementIDs (some (.obj [("value", .arr [])]))
      = .error .noSuchElement ∧
    (∀ (r : rawResponse) (ms : List (List (String × String))),
      rawResponse.unmarshalElementsReply r = .ok ms → ms ≠ [] →
      (∀ m ∈ ms, elementIDFromValue m ≠ "") →
      rawResponse.valueConvertToElementIDs r = .ok (ms.map elementIDFromValue)) ∧
    (∀ (r : rawResponse) (l₁ : List (List (String × String)))
      (m : List (String × String)) (l₂ : List (List (String × String))),
      rawResponse.unmarshalElementsReply r = .ok (l₁ ++ m :: l₂) →
      (∀ x ∈ l₁, elementIDFromValue x ≠ "") →
      elementIDFromValue m = "" →
      rawResponse.valueConvertToElementIDs r = .error .invalidElement) := by
  refine ⟨rfl, ?_, ?_⟩
  · intro r ms hdec hne h
    have hlen : ms.length ≠ 0 := by simpa using hne
    simp [rawResponse.valueConvertToElementIDs, hdec, hlen,
      collectElementIDs_ok ms h]
  · intro r l₁ m l₂ hdec h₁ hm
    have hlen : (l₁ ++ m :: l₂).length ≠ 0 := by simp
    simp [rawResponse.valueConvertToElementIDs, hdec, hlen,
      collectElementIDs_first_bad l₁ m l₂ h₁ hm]

/-- C6 witness: a one-entry wire list resolves to its handle. -/
theorem valueConvertToElementIDs_cases_witness :
    rawResponse.valueConvertToElementIDs
      (some (.obj [("value", .arr [.obj [("ELEMENT", .str "x")]])]))
      = .ok ["x"] :=
  valueConvertToElementIDs_cases.2.1
    (some (.obj [("value", .arr [.obj [("ELEMENT", .str "x")]])]))
    [[("ELEMENT", "x")]] rfl (by decide) (by decide)

/-- C7: ElementType.String returns the wire name (json tag) of the first
flag holding true in declared field order — so with several true flags
the first in declared order wins — returns the sentinel "UNKNOWN" (not
an error) when all flags are false, and renders the Button-only flag set
to "XCUIElementTypeButton". -/
theorem elementTypeString_first_true_flag :
    (∀ (et : ElementType) (l₁ : List (String × Bool)) (q : String × Bool)
      (l₂ : List (String × Bool)),
      ElementType.taggedFields et = l₁ ++ q :: l₂ →
      (∀ x ∈ l₁, x.2 = false) → q.2 = true →
      ElementType.String et = q.1) ∧
    (∀ et : ElementType,
      (∀ x ∈ ElementType.taggedFields et, x.2 = false) →
      ElementType.String et = "UNKNOWN") ∧
    ElementType.String { Button := true } = "XCUIElementTypeButton" := by
  refine ⟨?_, ?_, by rfl⟩
  · intro et l₁ q l₂ h h₁ h₂
    simp only [ElementType.String, h]
    rw [find?_append_first (fun p => p.2) l₁ q l₂ h₁ h₂]
  · intro et h
    simp only [ElementType.String]
    rw [List.find?_eq_none.mpr (fun x hx => by simp [h x hx])]

/-- C7 witness: the all-false flag set renders to the sentinel. -/
theorem elementTypeString_first_true_flag_witness :
    ElementType.String {} = "UNKNOWN" :=
  elementTypeString_first_true_flag.2.1 {} (by decide)

/-- The selector loop returns the first active field's tag and rendered
value, whatever value was carried in. -/
theorem getUVLoop_first (l₁ l₂ : List (String × String)) (q : String × String)
    (v0 : String) (h₁ : ∀ x ∈ l₁, x.2 = "" ∨ x.2 = "UNKNOWN")
    (h₂ : q.2 ≠ "") (h₃ : q.2 ≠ "UNKNOWN") :
    getUVLoop (l₁ ++ q :: l₂) v0 = (q.1, q.2) := by
  induction l₁ generalizing v0 with
  | nil =>
    obtain ⟨t, v⟩ := q
    simp only at h₂ h₃
    have hcond : (v != "" && v != "UNKNOWN") = true := by
      simp [Bool.and_eq_true, bne_iff_ne]
      exact ⟨h₂, h₃⟩
    simp [getUVLoop, hcond]
  | cons a rest ih =>
    obtain ⟨t, v⟩ := a
    have ha := h₁ (t, v) (by simp)
    simp only at ha
    have hrest : ∀ x ∈ rest, x.2 = "" ∨ x.2 = "UNKNOWN" :=
      fun x hx => h₁ x (List.mem_cons_of_mem _ hx)
    rcases ha with h' | h' <;> subst h' <;>
      simpa [getUVLoop] using ih _ hrest

/-- When every field is inactive the selector loop exhausts and yields
an empty tag together with the last field's rendered value. -/
theorem getUVLoop_exhaust (l : List (String × String)) (v0 : String)
    (h : ∀ x ∈ l, x.2 = "" ∨ x.2 = "UNKNOWN") :
    getUVLoop l v0 = ("", (l.map Prod.snd).getLastD v0) := by
  induction l generalizing v0 with
  | nil => rfl
  | cons a rest ih =>
    obtain ⟨t, v⟩ := a
    have ha := h (t, v) (by simp)
    simp only at ha
    have hrest : ∀ x ∈ rest, x.2 = "" ∨ x.2 = "UNKNOWN" :=
      fun x hx => h x (List.mem_cons_of_mem _ hx)
    rcases ha with h' | h' <;> subst h' <;>
      (rw [List.map_cons, List.getLastD_cons]
       simpa [getUVLoop] using ih _ hrest)

/-- C2 counterexample: a selector whose only populated field is
`XPath = "UNKNOWN"` has no active field, yet getUsingAndValue returns
("", "UNKNOWN"), not two empty strings: the Go named return `value`
keeps the last field's rendered string when the loop exhausts. -/
theorem getUsingAndValue_inactive_counterexample :
    BySelector.getUsingAndValue { XPath := "UNKNOWN" } = ("", "UNKNOWN") ∧
    (("", "UNKNOWN") : String × String) ≠ ("", "") :=
  ⟨rfl, by decide⟩

/-- C2 amended: the encoder scans the strategy fields in declared order
(class name, name, id, accessibility id, link text, partial link text,
predicate string, class chain, xpath); the first field whose rendered
value is non-empty and not "UNKNOWN" determines the result as its wire
name and rendered value; when no field is active the `using` output is
empty and the `value` output is the xpath field's rendered value (which
is then "" or "UNKNOWN" — both outputs are empty only when the xpath
field is empty); in particular a selector with non-empty id (other than
the sentinel) and non-empty xpath yields using="id". -/
theorem getUsingAndValue_first_match :
    (∀ (wl : BySelector) (l₁ l₂ : List (String × String)) (q : String × String),
      BySelector.taggedFields wl = l₁ ++ q :: l₂ →
      (∀ x ∈ l₁, x.2 = "" ∨ x.2 = "UNKNOWN") →
      q.2 ≠ "" → q.2 ≠ "UNKNOWN" →
      BySelector.getUsingAndValue wl = (q.1, q.2)) ∧
    (∀ wl : BySelector,
      (∀ x ∈ BySelector.taggedFields wl, x.2 = "" ∨ x.2 = "UNKNOWN") →
      BySelector.getUsingAndValue wl = ("", wl.XPath)) ∧
    (∀ id xpath : String, id ≠ "" → id ≠ "UNKNOWN" → xpath ≠ "" →
      BySelector.getUsingAndValue { Id := id, XPath := xpath } = ("id", id)) := by
  refine ⟨?_, ?_, ?_⟩
  · intro wl l₁ l₂ q h h₁ h₂ h₃
    simp only [BySelector.getUsingAndValue, h]
    exact getUVLoop_first l₁ l₂ q "" h₁ h₂ h₃
  · intro wl h
    simp only [BySelector.getUsingAndValue]
    rw [getUVLoop_exhaust (BySelector.taggedFields wl) "" h]
    simp [BySelector.taggedFields]
  · intro id xpath hid hidu hx
    have hsplit : BySelector.taggedFields { Id := id, XPath := xpath } =
        [("class name", ElementType.String {}), ("name", "")] ++
          ("id", id) :: [("accessibility id", ""),
            ("link text", ElementAttribute.String []),
            ("partial link text", ElementAttribute.String []),
            ("predicate string", ""), ("class chain", ""),
            ("xpath", xpath)] := rfl
    simp only [BySelector.getUsingAndValue, hsplit]
    exact getUVLoop_first _ _ ("id", id) ""
      (by
        intro x hx'
        simp only [List.mem_cons, List.mem_singleton] at hx'
        rcases hx' with h' | h' | h' <;> first
          | (subst h'; right; rfl)
          | (subst h'; left; rfl)
          | exact absurd h' (by simp))
      hid hidu

/-- C2 witness: both id and xpath populated yields using="id". -/
theorem getUsingAndValue_first_match_witness :
    BySelector.getUsingAndValue { Id := "my-id", XPath := "//a" } = ("id", "my-id") :=
  getUsingAndValue_first_match.2.2 "my-id" "//a" (by decide) (by decide) (by decide)

/-- C3 counterexample: for message "\x7ba=b\x7d \x7bc=d\x7d" (two
matches of the regex), checkErr takes the capture of the FIRST match,
"b" — Go's FindStringSubmatch returns the leftmost match — while the
claim's "last captured group of the last match" would be "d". -/
theorem checkErr_last_match_counterexample :
    rawResponse.checkErr (some (.obj [("value",
      .obj [("error", .str "e"), ("message", .str "\x7ba=b\x7d \x7bc=d\x7d")])]))
      = some (.protocolError "e" "b") ∧
    lastMatchCapture "\x7ba=b\x7d \x7bc=d\x7d" = some "d" ∧
    ("b" : String) ≠ "d" :=
  ⟨rfl, rfl, by decide⟩

/-- C3 amended: for every envelope whose value.error is non-empty and
whose value.message matches the regex, checkErr builds the protocol
error's effective message from the captured group of the first
(leftmost) match of the lazy regex; in particular, for message
"Original error: \x7bNSLocalizedDescription=Element not found\x7d" the
effective message is "Element not found", not the raw wrapped string. -/
theorem checkErr_unwraps_first_match (r : rawResponse)
    (reply : ErrReplyValue) (cap : String)
    (hdec : rawResponse.unmarshalErrReply r = .ok reply)
    (he : reply.Err ≠ "")
    (hm : findSubmatchCapture reply.Message = some cap) :
    rawResponse.checkErr r = some (.protocolError reply.Err cap) := by
  simp [rawResponse.checkErr, hdec, hm, bne_iff_ne, he]

/-- C3 witness at the spec's example message. -/
theorem checkErr_unwraps_first_match_witness :
    rawResponse.checkErr (some (.obj [("value",
      .obj [("error", .str "invalid element"),
        ("message",
          .str "Original error: \x7bNSLocalizedDescription=Element not found\x7d")])]))
      = some (.protocolError "invalid element" "Element not found") :=
  checkErr_unwraps_first_match
    (some (.obj [("value",
      .obj [("error", .str "invalid element"),
        ("message",
          .str "Original error: \x7bNSLocalizedDescription=Element not found\x7d")])]))
    ⟨"invalid element",
     "Original error: \x7bNSLocalizedDescription=Element not found\x7d", ""⟩
    "Element not found" rfl (by decide) rfl

/-- The base64 alphabet maps each 6-bit value to a character code that
decodes back to it. -/
theorem b64_char_roundtrip : ∀ n < 64, b64DecChar (b64EncChar n) = some n := by
  decide

/-- Every character code the encoder emits (alphabet or padding) is
below 123. -/
theorem b64EncChar_lt (n : Nat) : b64EncChar n < 123 := by
  unfold b64EncChar
  split
  · omega
  · split
    · omega
    · split
      · omega
      · split <;> omega

/-- The alphabet never emits the padding code 61. -/
theorem b64EncChar_ne_61 (n : Nat) : b64EncChar n ≠ 61 := by
  unfold b64EncChar
  split
  · omega
  · split
    · omega
    · split
      · omega
      · split <;> omega

/-- Every code in an encoded sequence is below 123. -/
theorem base64EncodeCodes_lt : ∀ (b : List Nat), ∀ c ∈ base64EncodeCodes b, c < 123
  | [] => by simp [base64EncodeCodes]
  | [b0] => by
    simp only [base64EncodeCodes, List.mem_cons, List.not_mem_nil, or_false]
    rintro c (h | h | h | h) <;> subst h <;> first | exact b64EncChar_lt _ | omega
  | [b0, b1] => by
    simp only [base64EncodeCodes, List.mem_cons, List.not_mem_nil, or_false]
    rintro c (h | h | h | h) <;> subst h <;> first | exact b64EncChar_lt _ | omega
  | b0 :: b1 :: b2 :: rest => by
    simp only [base64EncodeCodes, List.mem_cons]
    rintro c (h | h | h | h | h)
    · subst h; exact b64EncChar_lt _
    · subst h; exact b64EncChar_lt _
    · subst h; exact b64EncChar_lt _
    · subst h; exact b64EncChar_lt _
    · exact base64EncodeCodes_lt rest c h

/-- Character round trip through Char.ofNat/Char.toNat for the code
range the encoder uses. -/
theorem char_toNat_ofNat : ∀ n < 123, (Char.ofNat n).toNat = n := by
  decide

/-- Base64 decoding inverts encoding on byte sequences. -/
theorem base64_decode_encode : ∀ (b : List Nat), (∀ x ∈ b, x < 256) →
    base64DecodeCodes (base64EncodeCodes b) = some b
  | [], _ => rfl
  | [b0], h => by
    have h0 : b0 < 256 := h b0 (by simp)
    have e0 := b64_char_roundtrip (b0 / 4) (by omega)
    have e1 := b64_char_roundtrip (b0 % 4 * 16) (by omega)
    simp only [base64EncodeCodes, base64DecodeCodes]
    simp [e0, e1]
    omega
  | [b0, b1], h => by
    have h0 : b0 < 256 := h b0 (by simp)
    have h1 : b1 < 256 := h b1 (by simp)
    have e0 := b64_char_roundtrip (b0 / 4) (by omega)
    have e1 := b64_char_roundtrip (b0 % 4 * 16 + b1 / 16) (by omega)
    have e2 := b64_char_roundtrip (b1 % 16 * 4) (by omega)
    have n2 : b64EncChar (b1 % 16 * 4) ≠ 61 := b64EncChar_ne_61 _
    simp only [base64EncodeCodes, base64DecodeCodes]
    simp [n2, e0, e1, e2]
    omega
  | b0 :: b1 :: b2 :: rest, h => by
    have h0 : b0 < 256 := h b0 (by simp)
    have h1 : b1 < 256 := h b1 (by simp)
    have h2 : b2 < 256 := h b2 (by simp)
    have e0 := b64_char_roundtrip (b0 / 4) (by omega)
    have e1 := b64_char_roundtrip (b0 % 4 * 16 + b1 / 16) (by omega)
    have e2 := b64_char_roundtrip (b1 % 16 * 4 + b2 / 64) (by omega)
    have e3 := b64_char_roundtrip (b2 % 64) (by omega)
    have n2 : b64EncChar (b1 % 16 * 4 + b2 / 64) ≠ 61 := b64EncChar_ne_61 _
    have n3 : b64EncChar (b2 % 64) ≠ 61 := b64EncChar_ne_61 _
    have ih := base64_decode_encode rest
      (fun x hx => h x (by simp [List.mem_cons]; tauto))
    simp only [base64EncodeCodes, base64DecodeCodes]
    simp [n2, n3, e0, e1, e2, e3, ih]
    omega

/-- C8: decoding the synthetic envelope holding the standard base64
encoding of any byte sequence via valueDecodeAsBase64 succeeds and
returns exactly that sequence. -/
theorem valueDecodeAsBase64_roundtrip (b : List Nat) (hb : ∀ x ∈ b, x < 256) :
    rawResponse.valueDecodeAsBase64
      (some (.obj [("value", .str (base64EncodeString b))])) = .ok b := by
  have hs : rawResponse.valueConvertToString
      (some (.obj [("value", .str (base64EncodeString b))]))
      = .ok (base64EncodeString b) := rfl
  simp only [rawResponse.valueDecodeAsBase64, hs]
  have hdata : (base64EncodeString b).data.map Char.toNat = base64EncodeCodes b := by
    show ((base64EncodeCodes b).map Char.ofNat).map Char.toNat = base64EncodeCodes b
    rw [List.map_map]
    have : ∀ c ∈ base64EncodeCodes b, (Char.toNat ∘ Char.ofNat) c = c :=
      fun c hc => char_toNat_ofNat c (base64EncodeCodes_lt b c hc)
    rw [List.map_congr_left this]
    simp
  rw [hdata, base64_decode_encode b hb]

/-- C8 witness: the three-byte sequence [104, 105, 33] round-trips. -/
theorem valueDecodeAsBase64_roundtrip_witness :
    (∀ x ∈ [104, 105, 33], x < 256) ∧
    rawResponse.valueDecodeAsBase64
      (some (.obj [("value", .str (base64EncodeString [104, 105, 33]))]))
      = .ok [104, 105, 33] :=
  ⟨by decide, valueDecodeAsBase64_roundtrip [104, 105, 33] (by decide)⟩
